import Mathlib

/-!
Verification development for the `gotrntmessages` module: a BitTorrent
peer-wire message codec.  The repository holds two near-duplicate revisions
of one Go file; they agree on the data model, the byte-order helpers and
`EncodeMessage`, and differ in `GetMessageType` and `DecodeMessage`
(one revision expects the 4-byte length header still attached to the buffer
and reads the id byte at index 4, the other expects it already removed and
reads the id byte at index 0).  The shared parts are embedded once; the two
classifier/decoder variants live in the namespaces `Gotrnt`
(file `gotrntmessages.go`) and `Part000` (the unnamed revision).

Modelling conventions:
- Go byte buffers and strings are `List Nat` (byte values).
- Go slice expressions `buf[lo:hi]` are `goSlice`, which returns `none`
  exactly when Go would panic with a slice-bounds error (slices are taken
  at capacity = length).
- `DecodeMessage` returns `DecodeResult`: `success m` for `(m, true)`,
  `failure` for `(nil, false)`, and `fault` for a runtime panic.
- `EncodeMessage`'s `MsgData` interface argument is `Option MsgData`
  (`none` models a nil interface value).
- Machine integers are `Nat`; conversions that truncate in Go
  (`byte(..)`, `uint32(..)`) are written with explicit `% 256` / `% 2 ^ 32`
  where the operand is not already in range.
-/

/-- Message type ordinals, from the `iota` block shared by both revisions. -/
def MsgTypeChoke : Nat := 0

/-- Ordinal of the Unchoke message type. -/
def MsgTypeUnchoke : Nat := 1

/-- Ordinal of the Interested message type. -/
def MsgTypeInterested : Nat := 2

/-- Ordinal of the NotInterested message type. -/
def MsgTypeNotInterested : Nat := 3

/-- Ordinal of the Have message type. -/
def MsgTypeHave : Nat := 4

/-- Ordinal of the Bitfield message type. -/
def MsgTypeBitfield : Nat := 5

/-- Ordinal of the Request message type. -/
def MsgTypeRequest : Nat := 6

/-- Ordinal of the Piece message type. -/
def MsgTypePiece : Nat := 7

/-- Ordinal of the Cancel message type. -/
def MsgTypeCancel : Nat := 8

/-- Ordinal of the Port message type. -/
def MsgTypePort : Nat := 9

/-- Ordinal of the Handshake message type. -/
def MsgTypeHandshake : Nat := 10

/-- Ordinal of the KeepAlive message type. -/
def MsgTypeKeepAlive : Nat := 11

/-- Ordinal of the Invalid sentinel message type. -/
def MsgTypeInvalid : Nat := 12

/-- Message type display names (`MsgTypeNames` in the source, including its
"Bitfiled" typo). -/
def MsgTypeNames : List String :=
  ["Choke", "Unchoke", "Interested", "NotInterested", "Have", "Bitfiled",
   "Request", "Piece", "Cancel", "Port", "Handshake", "KeepAlive", "Invalid"]

/-- The BitTorrent protocol header string `goTrntHeader`. -/
def goTrntHeader : String := "BitTorrent protocol"

/-- Byte values of `goTrntHeader` ("BitTorrent protocol"), since buffers are
modelled as byte lists. -/
def goTrntHeaderBytes : List Nat :=
  [66, 105, 116, 84, 111, 114, 114, 101, 110, 116, 32,
   112, 114, 111, 116, 111, 99, 111, 108]

/-- Sanity check tying `goTrntHeaderBytes` to the source's string literal. -/
theorem goTrntHeaderBytes_eq_goTrntHeader :
    goTrntHeader.toList.map Char.toNat = goTrntHeaderBytes := by decide

/-- Length of the protocol header (`goTrntHeaderLen = byte(len(goTrntHeader))`,
which is 19). -/
def goTrntHeaderLen : Nat := goTrntHeaderBytes.length

/-- The tagged union of peer message payload records: one constructor per
`MsgData...` struct of the source.  Each struct embeds `MsgDataCommon`,
whose single field is the `msgType` tag; that field is the first argument of
every constructor. -/
inductive MsgData where
  | MsgDataChoke (msgType : Nat) (isChoking : Bool)
  | MsgDataInterested (msgType : Nat) (isInterested : Bool)
  | MsgDataHave (msgType : Nat) (pieceIndex : Nat)
  | MsgDataBitfield (msgType : Nat) (bitfield : List Nat)
  | MsgDataRequestCancel (msgType : Nat) (pieceIndex pieceBytesBegin pieceBytesLen : Nat)
  | MsgDataPiece (msgType : Nat) (pieceIndex pieceBytesBegin : Nat) (pieceBlock : List Nat)
  | MsgDataHandshake (msgType : Nat) (protocolStrLen : Nat)
      (protocolStr reservedBytes infoHash peerId : List Nat)
  | MsgDataPort (msgType : Nat) (peerPort : Nat)
  deriving DecidableEq

/-- The embedded `MsgDataCommon.MsgType` tag of a message record. -/
def msgTypeTag (msgData : MsgData) : Nat :=
  match msgData with
  | .MsgDataChoke msgType _ => msgType
  | .MsgDataInterested msgType _ => msgType
  | .MsgDataHave msgType _ => msgType
  | .MsgDataBitfield msgType _ => msgType
  | .MsgDataRequestCancel msgType _ _ _ => msgType
  | .MsgDataPiece msgType _ _ _ => msgType
  | .MsgDataHandshake msgType _ _ _ _ _ => msgType
  | .MsgDataPort msgType _ => msgType

/-- The interface method `GetMsgType`, implemented once on `MsgDataCommon`:
returns the embedded tag and its display name. -/
def GetMsgType (msgData : MsgData) : Nat × String :=
  (msgTypeTag msgData, MsgTypeNames.getD (msgTypeTag msgData) "")

/-- Go's big-endian u32 serializer `getBytesFromUint32`
(`byte((num >> k) & 0xff)` for k = 24, 16, 8, 0). -/
def getBytesFromUint32 (num : Nat) : List Nat :=
  [(num >>> 24) &&& 0xff, (num >>> 16) &&& 0xff, (num >>> 8) &&& 0xff, num &&& 0xff]

/-- Go's u16 serializer `getBytesFromUint16`.  The source really writes
`byte((num >> 8) | 0xff)` and `byte(num | 0xff)` — an OR where an AND was
clearly intended — so both output bytes are always `0xff`.  The `% 256`
is the `byte(..)` truncation. -/
def getBytesFromUint16 (num : Nat) : List Nat :=
  [((num >>> 8) ||| 0xff) % 256, (num ||| 0xff) % 256]

/-- Go's big-endian u16 reader `getUint16FromBytes`. -/
def getUint16FromBytes (buf : List Nat) : Nat :=
  if buf.length < 2 then 0
  else ((buf.getD 0 0) <<< 8) ||| buf.getD 1 0

/-- Go's big-endian u32 reader `getUint32FromBytes`. -/
def getUint32FromBytes (buf : List Nat) : Nat :=
  if buf.length < 4 then 0
  else ((buf.getD 0 0) <<< 24) ||| ((buf.getD 1 0) <<< 16) |||
    ((buf.getD 2 0) <<< 8) ||| buf.getD 3 0

/-- Go slice expression `buf[lo:hi]`: `none` models the runtime panic raised
when the bounds are out of range (`lo ≤ hi ≤ len` is required; buffers are
modelled with capacity = length). -/
def goSlice (buf : List Nat) (lo hi : Nat) : Option (List Nat) :=
  if lo ≤ hi ∧ hi ≤ buf.length then some ((buf.drop lo).take (hi - lo)) else none

/-- Outcome of `DecodeMessage`: `success m` is `(m, true)`, `failure` is
`(nil, false)`, and `fault` is a Go runtime panic (out-of-range slice
access). -/
inductive DecodeResult where
  | success (msgData : MsgData)
  | failure
  | fault
  deriving DecidableEq

/-- The `switch msgType` statement of `DecodeMessage`, shared verbatim by the
two revisions (one applies it to the buffer after removing the 4-byte length
header, the other to the buffer it was given).  Every slice expression of the
source is modelled by `goSlice`; a failing bound produces `fault`. -/
def decodeMsgSwitch (msgType : Nat) (buf : List Nat) : DecodeResult :=
  if msgType = MsgTypeChoke ∨ msgType = MsgTypeUnchoke then
    .success (.MsgDataChoke msgType (if msgType = MsgTypeChoke then true else false))
  else if msgType = MsgTypeInterested ∨ msgType = MsgTypeNotInterested then
    .success (.MsgDataInterested msgType (if msgType = MsgTypeInterested then true else false))
  else if msgType = MsgTypeHave then
    match goSlice buf 1 5 with
    | none => .fault
    | some s => .success (.MsgDataHave msgType (getUint32FromBytes s))
  else if msgType = MsgTypeBitfield then
    match goSlice buf 1 buf.length with
    | none => .fault
    | some s => .success (.MsgDataBitfield msgType s)
  else if msgType = MsgTypePiece then
    match goSlice buf 1 5 with
    | none => .fault
    | some s1 =>
      match goSlice buf 5 9 with
      | none => .fault
      | some s2 =>
        match goSlice buf 9 buf.length with
        | none => .fault
        | some s3 =>
          .success (.MsgDataPiece msgType (getUint32FromBytes s1) (getUint32FromBytes s2) s3)
  else if msgType = MsgTypeRequest ∨ msgType = MsgTypeCancel then
    match goSlice buf 1 5 with
    | none => .fault
    | some s1 =>
      match goSlice buf 5 9 with
      | none => .fault
      | some s2 =>
        match goSlice buf 9 13 with
        | none => .fault
        | some s3 =>
          .success (.MsgDataRequestCancel msgType (getUint32FromBytes s1)
            (getUint32FromBytes s2) (getUint32FromBytes s3))
  else if msgType = MsgTypePort then
    match goSlice buf 1 3 with
    | none => .fault
    | some s => .success (.MsgDataPort msgType (getUint16FromBytes s))
  else if msgType = MsgTypeHandshake then
    match buf.head? with
    | none => .fault
    | some b0 =>
      match goSlice buf 1 20 with
      | none => .fault
      | some s1 =>
        match goSlice buf 20 28 with
        | none => .fault
        | some s2 =>
          match goSlice buf 28 48 with
          | none => .fault
          | some s3 =>
            match goSlice buf 48 68 with
            | none => .fault
            | some s4 => .success (.MsgDataHandshake msgType b0 s1 s2 s3 s4)
  else
    .failure

namespace Gotrnt

/-- `GetMessageType` of `gotrntmessages.go`: the handshake pattern is checked
first; otherwise the id byte sits at index 4, after the 4-byte length header
(the guard `len(buf) > 4` keeps the access in bounds, so plain `getD` is
faithful), and values above `MsgTypeInvalid` are clamped to it. -/
def GetMessageType (buf : List Nat) : Nat × String :=
  if buf.length > goTrntHeaderLen ∧ buf.getD 0 0 = goTrntHeaderLen ∧
      (buf.drop 1).take goTrntHeaderLen = goTrntHeaderBytes then
    (MsgTypeHandshake, MsgTypeNames.getD MsgTypeHandshake "")
  else if buf.length > 4 then
    (if buf.getD 4 0 > MsgTypeInvalid then MsgTypeInvalid else buf.getD 4 0,
     MsgTypeNames.getD (if buf.getD 4 0 > MsgTypeInvalid then MsgTypeInvalid else buf.getD 4 0) "")
  else
    (MsgTypeInvalid, MsgTypeNames.getD MsgTypeInvalid "")

/-- `DecodeMessage` of `gotrntmessages.go`: rejects empty buffers, classifies,
removes the 4-byte length header (`buf = buf[4:]`) for the types in
`[MsgTypeChoke, MsgTypePort]`, then runs the decoding switch. -/
def DecodeMessage (buf : List Nat) : DecodeResult :=
  if buf.length ≤ 0 then .failure
  else if MsgTypeChoke ≤ (GetMessageType buf).1 ∧ (GetMessageType buf).1 ≤ MsgTypePort then
    match goSlice buf 4 buf.length with
    | none => .fault
    | some rest => decodeMsgSwitch (GetMessageType buf).1 rest
  else decodeMsgSwitch (GetMessageType buf).1 buf

end Gotrnt

namespace Part000

/-- `GetMessageType` of the unnamed revision: rejects empty buffers, checks
the handshake pattern, and otherwise reads the id byte at index 0 (the length
header was already consumed by the caller), accepting only the range
`[MsgTypeChoke, MsgTypePort]`. -/
def GetMessageType (buf : List Nat) : Nat × String :=
  if buf.length ≤ 0 then
    (MsgTypeInvalid, MsgTypeNames.getD MsgTypeInvalid "")
  else if buf.length > goTrntHeaderLen ∧ buf.getD 0 0 = goTrntHeaderLen ∧
      (buf.drop 1).take goTrntHeaderLen = goTrntHeaderBytes then
    (MsgTypeHandshake, MsgTypeNames.getD MsgTypeHandshake "")
  else if MsgTypeChoke ≤ buf.getD 0 0 ∧ buf.getD 0 0 ≤ MsgTypePort then
    (if buf.getD 0 0 > MsgTypeInvalid then MsgTypeInvalid else buf.getD 0 0,
     MsgTypeNames.getD (if buf.getD 0 0 > MsgTypeInvalid then MsgTypeInvalid else buf.getD 0 0) "")
  else
    (MsgTypeInvalid, MsgTypeNames.getD MsgTypeInvalid "")

/-- `DecodeMessage` of the unnamed revision: rejects empty buffers,
classifies, and runs the decoding switch directly on the given buffer. -/
def DecodeMessage (buf : List Nat) : DecodeResult :=
  if buf.length ≤ 0 then .failure
  else decodeMsgSwitch (GetMessageType buf).1 buf

end Part000

/-- `EncodeMessage`, identical in both revisions.  The single-byte types are
serialized before the nil check; afterwards each case type-asserts the
payload record (modelled by matching the constructor — note the assertion
checks the record's type only, never its embedded `MsgType` tag), and every
error path returns the untouched empty buffer with `false`. -/
def EncodeMessage (msgType : Nat) (msgData : Option MsgData) : List Nat × Bool :=
  if msgType = MsgTypeChoke ∨ msgType = MsgTypeUnchoke ∨
      msgType = MsgTypeInterested ∨ msgType = MsgTypeNotInterested then
    (getBytesFromUint32 1 ++ [msgType % 256], true)
  else
    match msgData with
    | none => ([], false)
    | some d =>
      if msgType = MsgTypeHave then
        match d with
        | .MsgDataHave _ pieceIndex =>
          (getBytesFromUint32 5 ++ [4] ++ getBytesFromUint32 pieceIndex, true)
        | _ => ([], false)
      else if msgType = MsgTypeBitfield then
        match d with
        | .MsgDataBitfield _ bitfield =>
          if bitfield.length ≤ 0 then ([], false)
          else (getBytesFromUint32 ((1 + bitfield.length) % 2 ^ 32) ++ [5] ++ bitfield, true)
        | _ => ([], false)
      else if msgType = MsgTypeRequest ∨ msgType = MsgTypeCancel then
        match d with
        | .MsgDataRequestCancel _ pieceIndex pieceBytesBegin pieceBytesLen =>
          (getBytesFromUint32 13 ++ [if msgType = MsgTypeRequest then 6 else 8] ++
            getBytesFromUint32 pieceIndex ++ getBytesFromUint32 pieceBytesBegin ++
            getBytesFromUint32 pieceBytesLen, true)
        | _ => ([], false)
      else if msgType = MsgTypePiece then
        match d with
        | .MsgDataPiece _ pieceIndex pieceBytesBegin pieceBlock =>
          if pieceBlock.length ≤ 0 then ([], false)
          else (getBytesFromUint32 ((9 + pieceBlock.length) % 2 ^ 32) ++ [7] ++
            getBytesFromUint32 pieceIndex ++ getBytesFromUint32 pieceBytesBegin ++
            pieceBlock, true)
        | _ => ([], false)
      else if msgType = MsgTypePort then
        match d with
        | .MsgDataPort _ peerPort =>
          (getBytesFromUint32 3 ++ [9] ++ getBytesFromUint16 peerPort, true)
        | _ => ([], false)
      else if msgType = MsgTypeHandshake then
        match d with
        | .MsgDataHandshake _ _ _ _ infoHash peerId =>
          ([goTrntHeaderLen] ++ goTrntHeaderBytes ++ List.replicate 8 0 ++
            infoHash ++ peerId, true)
        | _ => ([], false)
      else if msgType = MsgTypeKeepAlive then
        (getBytesFromUint32 0, true)
      else ([], false)

/-- Formalizes the claim's "valid payload record P for kind K": the record is
of the type the data model assigns to K (no record type is assigned to
KeepAlive or Invalid), its embedded tag equals K, the kind-derived booleans
are consistent, numeric fields fit their machine width, variable tails are
nonempty (the encoder rejects empty ones), and a handshake record carries the
real protocol header and 20-byte identifiers. -/
def ValidPayload (msgType : Nat) (msgData : MsgData) : Prop :=
  match msgData with
  | .MsgDataChoke t b =>
      (msgType = MsgTypeChoke ∧ t = MsgTypeChoke ∧ b = true) ∨
      (msgType = MsgTypeUnchoke ∧ t = MsgTypeUnchoke ∧ b = false)
  | .MsgDataInterested t b =>
      (msgType = MsgTypeInterested ∧ t = MsgTypeInterested ∧ b = true) ∨
      (msgType = MsgTypeNotInterested ∧ t = MsgTypeNotInterested ∧ b = false)
  | .MsgDataHave t p => msgType = MsgTypeHave ∧ t = MsgTypeHave ∧ p < 2 ^ 32
  | .MsgDataBitfield t bits =>
      msgType = MsgTypeBitfield ∧ t = MsgTypeBitfield ∧ 0 < bits.length
  | .MsgDataRequestCancel t a b c =>
      (msgType = MsgTypeRequest ∨ msgType = MsgTypeCancel) ∧ t = msgType ∧
      a < 2 ^ 32 ∧ b < 2 ^ 32 ∧ c < 2 ^ 32
  | .MsgDataPiece t a b block =>
      msgType = MsgTypePiece ∧ t = MsgTypePiece ∧ a < 2 ^ 32 ∧ b < 2 ^ 32 ∧
      0 < block.length
  | .MsgDataHandshake t l s _ ih pid =>
      msgType = MsgTypeHandshake ∧ t = MsgTypeHandshake ∧ l = goTrntHeaderLen ∧
      s = goTrntHeaderBytes ∧ ih.length = 20 ∧ pid.length = 20
  | .MsgDataPort t p => msgType = MsgTypePort ∧ t = MsgTypePort ∧ p < 2 ^ 16

/-- The decoded message the round trip is expected to produce: the payload
itself, except that a handshake's reserved bytes come back as the eight zero
bytes the encoder emits (the claim's documented exception). -/
def roundTripExpected (msgData : MsgData) : MsgData :=
  match msgData with
  | .MsgDataHandshake t l s _ ih pid =>
      .MsgDataHandshake t l s (List.replicate 8 0) ih pid
  | m => m

/-- The record type `EncodeMessage`'s type assertion expects for each
payload-checking kind; the single-byte kinds and KeepAlive perform no
assertion and have no entry.  Formalizes the claim's "variant tag agrees
with K" as the code actually checks it: by record type only. -/
def recordMatchesKind (msgType : Nat) (msgData : MsgData) : Prop :=
  match msgData with
  | .MsgDataHave _ _ => msgType = MsgTypeHave
  | .MsgDataBitfield _ _ => msgType = MsgTypeBitfield
  | .MsgDataRequestCancel _ _ _ _ => msgType = MsgTypeRequest ∨ msgType = MsgTypeCancel
  | .MsgDataPiece _ _ _ _ => msgType = MsgTypePiece
  | .MsgDataPort _ _ => msgType = MsgTypePort
  | .MsgDataHandshake _ _ _ _ _ _ => msgType = MsgTypeHandshake
  | _ => False

/-! Helper lemmas. -/

/-- Big-endian u32 encode/decode round trip for values in range. -/
theorem getUint32FromBytes_getBytesFromUint32 (n : Nat) (h : n < 2 ^ 32) :
    getUint32FromBytes (getBytesFromUint32 n) = n := by
  show ((((n >>> 24) &&& 0xff) <<< 24) ||| (((n >>> 16) &&& 0xff) <<< 16) |||
    (((n >>> 8) &&& 0xff) <<< 8) ||| (n &&& 0xff)) = n
  have h255 : (0xff : Nat) = 2 ^ 8 - 1 := by norm_num
  apply Nat.eq_of_testBit_eq
  intro i
  simp only [Nat.testBit_lor, Nat.testBit_shiftLeft, h255, Nat.testBit_and,
    Nat.testBit_shiftRight, Nat.testBit_two_pow_sub_one]
  by_cases h8 : i < 8
  · simp [h8, show ¬ i ≥ 8 by omega, show ¬ i ≥ 16 by omega, show ¬ i ≥ 24 by omega]
  · by_cases h16 : i < 16
    · have e : 8 + (i - 8) = i := by omega
      simp [show i ≥ 8 by omega, show ¬ i ≥ 16 by omega, show ¬ i ≥ 24 by omega,
        show ¬ i < 8 by omega, show i - 8 < 8 by omega, e]
    · by_cases h24 : i < 24
      · have e : 16 + (i - 16) = i := by omega
        simp [show i ≥ 16 by omega, show ¬ i ≥ 24 by omega, show ¬ i < 8 by omega,
          show ¬ i - 8 < 8 by omega, show i - 16 < 8 by omega, e]
      · by_cases h32 : i < 32
        · have e : 24 + (i - 24) = i := by omega
          simp [show i ≥ 24 by omega, show ¬ i < 8 by omega, show ¬ i - 8 < 8 by omega,
            show ¬ i - 16 < 8 by omega, show i - 24 < 8 by omega, e]
        · have hn : Nat.testBit n i = false :=
            Nat.testBit_eq_false_of_lt
              (lt_of_lt_of_le h (Nat.pow_le_pow_right (by norm_num) (by omega)))
          simp [show ¬ i < 8 by omega, show ¬ i - 8 < 8 by omega,
            show ¬ i - 16 < 8 by omega, show ¬ i - 24 < 8 by omega, hn]

/-- A slice to the end of the buffer with an in-range start is the suffix. -/
theorem goSlice_to_length (buf : List Nat) (k : Nat) (h : k ≤ buf.length) :
    goSlice buf k buf.length = some (buf.drop k) := by
  unfold goSlice
  rw [if_pos ⟨h, le_refl _⟩]
  rw [show buf.length - k = (buf.drop k).length by simp, List.take_length]

/-- An in-range slice unfolds to drop-then-take. -/
theorem goSlice_pos (buf : List Nat) (lo hi : Nat) (h1 : lo ≤ hi) (h2 : hi ≤ buf.length) :
    goSlice buf lo hi = some ((buf.drop lo).take (hi - lo)) := by
  unfold goSlice
  exact if_pos ⟨h1, h2⟩

/-- The `gotrntmessages.go` classifier on a framed generic message: four
header bytes, then an id byte in the generic range.  The handshake branch
cannot fire because byte 4 of a handshake buffer would be byte 3 of the
protocol name, the letter T (84). -/
theorem Gotrnt_GetMessageType_framed (b0 b1 b2 b3 id : Nat) (rest : List Nat)
    (hid : id ≤ 9) :
    Gotrnt.GetMessageType (b0 :: b1 :: b2 :: b3 :: id :: rest) =
      (id, MsgTypeNames.getD id "") := by
  unfold Gotrnt.GetMessageType
  rw [if_neg, if_pos]
  · have hD : (b0 :: b1 :: b2 :: b3 :: id :: rest).getD 4 0 = id := rfl
    simp only [hD]
    rw [if_neg (show ¬ id > MsgTypeInvalid by unfold MsgTypeInvalid; omega)]
  · simp
  · rintro ⟨-, -, htake⟩
    have hix : id = 84 := congrArg (fun l => l.getD 3 0) htake
    omega

/-- The unnamed revision's classifier on an unframed generic message: the id
byte leads the buffer and is in the generic range (hence not 19, so the
handshake branch cannot fire). -/
theorem Part000_GetMessageType_unframed (id : Nat) (rest : List Nat) (hid : id ≤ 9) :
    Part000.GetMessageType (id :: rest) = (id, MsgTypeNames.getD id "") := by
  unfold Part000.GetMessageType
  rw [if_neg (by simp), if_neg, if_pos]
  · have hD : (id :: rest).getD 0 0 = id := rfl
    simp only [hD]
    rw [if_neg (show ¬ id > MsgTypeInvalid by unfold MsgTypeInvalid; omega)]
  · exact ⟨Nat.zero_le _, hid⟩
  · rintro ⟨-, hb0, -⟩
    have : id = goTrntHeaderLen := hb0
    unfold goTrntHeaderLen goTrntHeaderBytes at this
    simp at this
    omega

/-- `DecodeMessage` of `gotrntmessages.go` on a framed generic message
reduces to the shared decoding switch on the unframed tail. -/
theorem Gotrnt_DecodeMessage_framed (b0 b1 b2 b3 id : Nat) (rest : List Nat)
    (hid : id ≤ 9) :
    Gotrnt.DecodeMessage (b0 :: b1 :: b2 :: b3 :: id :: rest) =
      decodeMsgSwitch id (id :: rest) := by
  unfold Gotrnt.DecodeMessage
  rw [if_neg (by simp)]
  simp only [Gotrnt_GetMessageType_framed b0 b1 b2 b3 id rest hid]
  rw [if_pos ⟨Nat.zero_le _, hid⟩]
  rw [goSlice_to_length _ 4 (by simp)]
  rfl

/-- `DecodeMessage` of the unnamed revision on an unframed generic message
reduces to the shared decoding switch. -/
theorem Part000_DecodeMessage_unframed (id : Nat) (rest : List Nat) (hid : id ≤ 9) :
    Part000.DecodeMessage (id :: rest) = decodeMsgSwitch id (id :: rest) := by
  unfold Part000.DecodeMessage
  rw [if_neg (by simp)]
  simp only [Part000_GetMessageType_unframed id rest hid]

/-- The decoding switch on a well-formed Have payload. -/
theorem decodeMsgSwitch_have (p : Nat) (hp : p < 2 ^ 32) :
    decodeMsgSwitch MsgTypeHave (4 :: getBytesFromUint32 p) =
      .success (.MsgDataHave MsgTypeHave p) := by
  have h : decodeMsgSwitch MsgTypeHave (4 :: getBytesFromUint32 p) =
      .success (.MsgDataHave MsgTypeHave (getUint32FromBytes (getBytesFromUint32 p))) := rfl
  rw [h, getUint32FromBytes_getBytesFromUint32 p hp]

/-- The decoding switch on a well-formed Bitfield payload keeps the tail. -/
theorem decodeMsgSwitch_bitfield (bits : List Nat) :
    decodeMsgSwitch MsgTypeBitfield (5 :: bits) =
      .success (.MsgDataBitfield MsgTypeBitfield bits) := by
  unfold decodeMsgSwitch
  rw [if_neg (by decide), if_neg (by decide), if_neg (by decide), if_pos rfl]
  rw [goSlice_to_length _ 1 (by simp)]
  rfl

/-- The decoding switch on a well-formed Request or Cancel payload. -/
theorem decodeMsgSwitch_reqcancel (id a b c : Nat) (hid : id = 6 ∨ id = 8)
    (ha : a < 2 ^ 32) (hb : b < 2 ^ 32) (hc : c < 2 ^ 32) :
    decodeMsgSwitch id
        (id :: (getBytesFromUint32 a ++ getBytesFromUint32 b ++ getBytesFromUint32 c)) =
      .success (.MsgDataRequestCancel id a b c) := by
  have h : decodeMsgSwitch id
      (id :: (getBytesFromUint32 a ++ getBytesFromUint32 b ++ getBytesFromUint32 c)) =
      .success (.MsgDataRequestCancel id (getUint32FromBytes (getBytesFromUint32 a))
        (getUint32FromBytes (getBytesFromUint32 b))
        (getUint32FromBytes (getBytesFromUint32 c))) := by
    rcases hid with h6 | h8
    · subst h6; rfl
    · subst h8; rfl
  rw [h, getUint32FromBytes_getBytesFromUint32 a ha,
    getUint32FromBytes_getBytesFromUint32 b hb, getUint32FromBytes_getBytesFromUint32 c hc]

/-- The decoding switch on a well-formed Piece payload. -/
theorem decodeMsgSwitch_piece (a b : Nat) (block : List Nat)
    (ha : a < 2 ^ 32) (hb : b < 2 ^ 32) :
    decodeMsgSwitch MsgTypePiece
        (7 :: (getBytesFromUint32 a ++ getBytesFromUint32 b ++ block)) =
      .success (.MsgDataPiece MsgTypePiece a b block) := by
  unfold decodeMsgSwitch
  rw [if_neg (by decide), if_neg (by decide), if_neg (by decide), if_neg (by decide),
    if_pos rfl]
  have hlen : (7 :: (getBytesFromUint32 a ++ getBytesFromUint32 b ++ block)).length =
      9 + block.length := by
    simp [getBytesFromUint32]
    omega
  rw [goSlice_pos _ 1 5 (by omega) (by omega), goSlice_pos _ 5 9 (by omega) (by omega),
    goSlice_to_length _ 9 (by omega)]
  show DecodeResult.success (.MsgDataPiece MsgTypePiece
      (getUint32FromBytes (getBytesFromUint32 a)) (getUint32FromBytes (getBytesFromUint32 b))
      _) = _
  rw [getUint32FromBytes_getBytesFromUint32 a ha, getUint32FromBytes_getBytesFromUint32 b hb]
  rfl

/-- The `gotrntmessages.go` classifier on any buffer matching the handshake
pattern. -/
theorem Gotrnt_GetMessageType_handshake (buf : List Nat)
    (h1 : buf.length > goTrntHeaderLen) (h2 : buf.getD 0 0 = goTrntHeaderLen)
    (h3 : (buf.drop 1).take goTrntHeaderLen = goTrntHeaderBytes) :
    Gotrnt.GetMessageType buf = (MsgTypeHandshake, MsgTypeNames.getD MsgTypeHandshake "") := by
  unfold Gotrnt.GetMessageType
  rw [if_pos ⟨h1, h2, h3⟩]

/-- The unnamed revision's classifier on any buffer matching the handshake
pattern. -/
theorem Part000_GetMessageType_handshake (buf : List Nat)
    (h1 : buf.length > goTrntHeaderLen) (h2 : buf.getD 0 0 = goTrntHeaderLen)
    (h3 : (buf.drop 1).take goTrntHeaderLen = goTrntHeaderBytes) :
    Part000.GetMessageType buf = (MsgTypeHandshake, MsgTypeNames.getD MsgTypeHandshake "") := by
  unfold Part000.GetMessageType
  have h0 : (19 : Nat) < buf.length := h1
  rw [if_neg (by omega), if_pos ⟨h1, h2, h3⟩]

/-- The decoding switch on an encoded handshake buffer recovers the header,
the zero reserved bytes and the two 20-byte identifiers. -/
theorem decodeMsgSwitch_handshake (ih pid : List Nat)
    (hih : ih.length = 20) (hpid : pid.length = 20) :
    decodeMsgSwitch MsgTypeHandshake
        ([goTrntHeaderLen] ++ goTrntHeaderBytes ++ List.replicate 8 0 ++ ih ++ pid) =
      .success (.MsgDataHandshake MsgTypeHandshake goTrntHeaderLen goTrntHeaderBytes
        (List.replicate 8 0) ih pid) := by
  have hlen : ([goTrntHeaderLen] ++ goTrntHeaderBytes ++ List.replicate 8 0 ++ ih ++ pid).length
      = 68 := by
    simp [goTrntHeaderLen, goTrntHeaderBytes, hih, hpid]
  unfold decodeMsgSwitch
  rw [if_neg (by decide), if_neg (by decide), if_neg (by decide), if_neg (by decide),
    if_neg (by decide), if_neg (by decide), if_neg (by decide), if_pos rfl]
  rw [goSlice_pos _ 1 20 (by norm_num) (by rw [hlen]; norm_num),
    goSlice_pos _ 20 28 (by norm_num) (by rw [hlen]; norm_num),
    goSlice_pos _ 28 48 (by norm_num) (by rw [hlen]; norm_num),
    goSlice_pos _ 48 68 (by norm_num) (by rw [hlen])]
  have e1 : ((([goTrntHeaderLen] ++ goTrntHeaderBytes ++ List.replicate 8 0 ++ ih ++ pid).drop
      1).take (20 - 1)) = goTrntHeaderBytes := by
    show (goTrntHeaderBytes ++ (List.replicate 8 0 ++ (ih ++ pid))).take (20 - 1) = _
    rw [show (20 - 1 : Nat) = goTrntHeaderBytes.length from rfl]
    exact List.take_left _ _
  have e2 : ((([goTrntHeaderLen] ++ goTrntHeaderBytes ++ List.replicate 8 0 ++ ih ++ pid).drop
      20).take (28 - 20)) = List.replicate 8 0 := by
    show (List.replicate 8 0 ++ (ih ++ pid)).take (28 - 20) = _
    rw [show (28 - 20 : Nat) = (List.replicate 8 0).length from rfl]
    exact List.take_left _ _
  have e3 : ((([goTrntHeaderLen] ++ goTrntHeaderBytes ++ List.replicate 8 0 ++ ih ++ pid).drop
      28).take (48 - 28)) = ih := by
    show (ih ++ pid).take (48 - 28) = ih
    rw [show (48 - 28 : Nat) = 20 from rfl, ← hih]
    exact List.take_left _ _
  have e4 : ((([goTrntHeaderLen] ++ goTrntHeaderBytes ++ List.replicate 8 0 ++ ih ++ pid).drop
      48).take (68 - 48)) = pid := by
    show ((ih ++ pid).drop 20).take (68 - 48) = pid
    rw [show (68 - 48 : Nat) = 20 from rfl, ← hih, List.drop_left, hih, ← hpid]
    exact List.take_length _
  rw [e1, e2, e3, e4]
  rfl

/-- `DecodeMessage` of `gotrntmessages.go` on an encoded handshake buffer. -/
theorem Gotrnt_DecodeMessage_handshake (ih pid : List Nat)
    (hih : ih.length = 20) (hpid : pid.length = 20) :
    Gotrnt.DecodeMessage
        ([goTrntHeaderLen] ++ goTrntHeaderBytes ++ List.replicate 8 0 ++ ih ++ pid) =
      .success (.MsgDataHandshake MsgTypeHandshake goTrntHeaderLen goTrntHeaderBytes
        (List.replicate 8 0) ih pid) := by
  have hlen : ([goTrntHeaderLen] ++ goTrntHeaderBytes ++ List.replicate 8 0 ++ ih ++ pid).length
      = 68 := by
    simp [goTrntHeaderLen, goTrntHeaderBytes, hih, hpid]
  unfold Gotrnt.DecodeMessage
  rw [if_neg (by rw [hlen]; norm_num)]
  rw [Gotrnt_GetMessageType_handshake
    ([goTrntHeaderLen] ++ goTrntHeaderBytes ++ List.replicate 8 0 ++ ih ++ pid)
    (by rw [hlen]; decide) (by rfl)
    (by rw [show goTrntHeaderLen = goTrntHeaderBytes.length from rfl]
        exact List.take_left _ _)]
  rw [if_neg (by decide)]
  exact decodeMsgSwitch_handshake ih pid hih hpid

/-- `DecodeMessage` of the unnamed revision on an encoded handshake buffer. -/
theorem Part000_DecodeMessage_handshake (ih pid : List Nat)
    (hih : ih.length = 20) (hpid : pid.length = 20) :
    Part000.DecodeMessage
        ([goTrntHeaderLen] ++ goTrntHeaderBytes ++ List.replicate 8 0 ++ ih ++ pid) =
      .success (.MsgDataHandshake MsgTypeHandshake goTrntHeaderLen goTrntHeaderBytes
        (List.replicate 8 0) ih pid) := by
  have hlen : ([goTrntHeaderLen] ++ goTrntHeaderBytes ++ List.replicate 8 0 ++ ih ++ pid).length
      = 68 := by
    simp [goTrntHeaderLen, goTrntHeaderBytes, hih, hpid]
  unfold Part000.DecodeMessage
  rw [if_neg (by rw [hlen]; norm_num)]
  rw [Part000_GetMessageType_handshake
    ([goTrntHeaderLen] ++ goTrntHeaderBytes ++ List.replicate 8 0 ++ ih ++ pid)
    (by rw [hlen]; decide) (by rfl)
    (by rw [show goTrntHeaderLen = goTrntHeaderBytes.length from rfl]
        exact List.take_left _ _)]
  exact decodeMsgSwitch_handshake ih pid hih hpid


/-- Convenience form of the framed decode lemma: a buffer made of a 4-byte
length header produced by `getBytesFromUint32` followed by an id byte in the
generic range. -/
theorem Gotrnt_DecodeMessage_encoded (len id : Nat) (rest : List Nat) (hid : id ≤ 9) :
    Gotrnt.DecodeMessage (getBytesFromUint32 len ++ id :: rest) =
      decodeMsgSwitch id (id :: rest) := by
  have h : getBytesFromUint32 len ++ id :: rest =
      ((len >>> 24) &&& 0xff) :: ((len >>> 16) &&& 0xff) :: ((len >>> 8) &&& 0xff) ::
      (len &&& 0xff) :: id :: rest := rfl
  rw [h, Gotrnt_DecodeMessage_framed _ _ _ _ id rest hid]

/-- C1 (amended): for every kind other than Invalid and Port and every valid
payload record for it, decoding the encoder's output — directly for the
`gotrntmessages.go` decoder, whose convention keeps the 4-byte length header,
and with the header removed for the unnamed revision's decoder, whose
convention expects it gone (handshake buffers carry no header either way) —
succeeds with a message equal to the payload, except that a handshake's
reserved bytes come back as zeros.  KeepAlive has no payload record, so the
claim is vacuous for it; Port is excluded because its round trip fails (see
the counterexample). -/
theorem c1_roundtrip_amended (msgType : Nat) (msgData : MsgData)
    (hport : msgType ≠ MsgTypePort) (hv : ValidPayload msgType msgData) :
    (EncodeMessage msgType (some msgData)).2 = true ∧
    Gotrnt.DecodeMessage (EncodeMessage msgType (some msgData)).1 =
      .success (roundTripExpected msgData) ∧
    Part000.DecodeMessage
        (if msgType = MsgTypeHandshake then (EncodeMessage msgType (some msgData)).1
         else (EncodeMessage msgType (some msgData)).1.drop 4) =
      .success (roundTripExpected msgData) := by
  cases msgData with
  | MsgDataChoke t b =>
    rcases hv with ⟨hK, ht, hb⟩ | ⟨hK, ht, hb⟩ <;> subst hK <;> subst ht <;> subst hb <;>
      exact ⟨rfl, by decide, by decide⟩
  | MsgDataInterested t b =>
    rcases hv with ⟨hK, ht, hb⟩ | ⟨hK, ht, hb⟩ <;> subst hK <;> subst ht <;> subst hb <;>
      exact ⟨rfl, by decide, by decide⟩
  | MsgDataHave t p =>
    obtain ⟨hK, ht, hp⟩ := hv
    subst hK; subst ht
    refine ⟨rfl, ?_, ?_⟩
    · show Gotrnt.DecodeMessage (getBytesFromUint32 5 ++ 4 :: getBytesFromUint32 p) = _
      rw [Gotrnt_DecodeMessage_encoded 5 4 (getBytesFromUint32 p) (by norm_num)]
      exact decodeMsgSwitch_have p hp
    · rw [if_neg (by decide)]
      show Part000.DecodeMessage (4 :: getBytesFromUint32 p) = _
      rw [Part000_DecodeMessage_unframed 4 (getBytesFromUint32 p) (by norm_num)]
      exact decodeMsgSwitch_have p hp
  | MsgDataBitfield t bits =>
    obtain ⟨hK, ht, hpos⟩ := hv
    subst hK; subst ht
    have henc : EncodeMessage MsgTypeBitfield (some (.MsgDataBitfield MsgTypeBitfield bits)) =
        (getBytesFromUint32 ((1 + bits.length) % 2 ^ 32) ++ [5] ++ bits, true) := by
      show (if bits.length ≤ 0 then (([] : List Nat), false) else _) = _
      rw [if_neg (by omega)]
    refine ⟨by rw [henc], ?_, ?_⟩
    · rw [henc]
      show Gotrnt.DecodeMessage (getBytesFromUint32 ((1 + bits.length) % 2 ^ 32) ++ 5 :: bits) = _
      rw [Gotrnt_DecodeMessage_encoded _ 5 bits (by norm_num)]
      exact decodeMsgSwitch_bitfield bits
    · rw [henc, if_neg (by decide)]
      show Part000.DecodeMessage (5 :: bits) = _
      rw [Part000_DecodeMessage_unframed 5 bits (by norm_num)]
      exact decodeMsgSwitch_bitfield bits
  | MsgDataRequestCancel t a b c =>
    obtain ⟨hK, ht, ha, hb, hc⟩ := hv
    rcases hK with hK | hK <;> subst hK <;> subst ht
    · refine ⟨rfl, ?_, ?_⟩
      · show Gotrnt.DecodeMessage (getBytesFromUint32 13 ++ 6 ::
            (getBytesFromUint32 a ++ getBytesFromUint32 b ++ getBytesFromUint32 c)) = _
        rw [Gotrnt_DecodeMessage_encoded 13 6 _ (by norm_num)]
        exact decodeMsgSwitch_reqcancel 6 a b c (Or.inl rfl) ha hb hc
      · rw [if_neg (by decide)]
        show Part000.DecodeMessage (6 ::
            (getBytesFromUint32 a ++ getBytesFromUint32 b ++ getBytesFromUint32 c)) = _
        rw [Part000_DecodeMessage_unframed 6 _ (by norm_num)]
        exact decodeMsgSwitch_reqcancel 6 a b c (Or.inl rfl) ha hb hc
    · refine ⟨rfl, ?_, ?_⟩
      · show Gotrnt.DecodeMessage (getBytesFromUint32 13 ++ 8 ::
            (getBytesFromUint32 a ++ getBytesFromUint32 b ++ getBytesFromUint32 c)) = _
        rw [Gotrnt_DecodeMessage_encoded 13 8 _ (by norm_num)]
        exact decodeMsgSwitch_reqcancel 8 a b c (Or.inr rfl) ha hb hc
      · rw [if_neg (by decide)]
        show Part000.DecodeMessage (8 ::
            (getBytesFromUint32 a ++ getBytesFromUint32 b ++ getBytesFromUint32 c)) = _
        rw [Part000_DecodeMessage_unframed 8 _ (by norm_num)]
        exact decodeMsgSwitch_reqcancel 8 a b c (Or.inr rfl) ha hb hc
  | MsgDataPiece t a b block =>
    obtain ⟨hK, ht, ha, hb, hpos⟩ := hv
    subst hK; subst ht
    have henc : EncodeMessage MsgTypePiece (some (.MsgDataPiece MsgTypePiece a b block)) =
        (getBytesFromUint32 ((9 + block.length) % 2 ^ 32) ++ [7] ++ getBytesFromUint32 a ++
          getBytesFromUint32 b ++ block, true) := by
      show (if block.length ≤ 0 then (([] : List Nat), false) else _) = _
      rw [if_neg (by omega)]
    refine ⟨by rw [henc], ?_, ?_⟩
    · rw [henc]
      show Gotrnt.DecodeMessage (getBytesFromUint32 ((9 + block.length) % 2 ^ 32) ++ 7 ::
          (getBytesFromUint32 a ++ getBytesFromUint32 b ++ block)) = _
      rw [Gotrnt_DecodeMessage_encoded _ 7 _ (by norm_num)]
      exact decodeMsgSwitch_piece a b block ha hb
    · rw [henc, if_neg (by decide)]
      show Part000.DecodeMessage (7 ::
          (getBytesFromUint32 a ++ getBytesFromUint32 b ++ block)) = _
      rw [Part000_DecodeMessage_unframed 7 _ (by norm_num)]
      exact decodeMsgSwitch_piece a b block ha hb
  | MsgDataHandshake t l s rb ih pid =>
    obtain ⟨hK, ht, hl, hs, hih, hpid⟩ := hv
    subst hK; subst ht; subst hl; subst hs
    refine ⟨rfl, ?_, ?_⟩
    · show Gotrnt.DecodeMessage
          ([goTrntHeaderLen] ++ goTrntHeaderBytes ++ List.replicate 8 0 ++ ih ++ pid) = _
      rw [Gotrnt_DecodeMessage_handshake ih pid hih hpid]
      rfl
    · rw [if_pos rfl]
      show Part000.DecodeMessage
          ([goTrntHeaderLen] ++ goTrntHeaderBytes ++ List.replicate 8 0 ++ ih ++ pid) = _
      rw [Part000_DecodeMessage_handshake ih pid hih hpid]
      rfl
  | MsgDataPort t p =>
    exact absurd hv.1 hport

/-- C1 (counterexample): the Port round trip fails.  Port{0} is a valid
payload, encoding succeeds, but the buggy u16 serializer writes FF FF, so
both decoders (each fed per its own length-header convention) read back
65535, not 0. -/
theorem c1_roundtrip_counterexample :
    ValidPayload MsgTypePort (.MsgDataPort MsgTypePort 0) ∧
    EncodeMessage MsgTypePort (some (.MsgDataPort MsgTypePort 0)) =
      ([0, 0, 0, 3, 9, 255, 255], true) ∧
    Gotrnt.DecodeMessage [0, 0, 0, 3, 9, 255, 255] ≠
      .success (.MsgDataPort MsgTypePort 0) ∧
    Part000.DecodeMessage [9, 255, 255] ≠ .success (.MsgDataPort MsgTypePort 0) :=
  ⟨⟨rfl, rfl, by norm_num⟩, by decide, by decide, by decide⟩

/-- C1 (witness): the amended round trip at kind Have with payload
Have{pieceIndex 42}. -/
theorem c1_roundtrip_witness :
    (EncodeMessage MsgTypeHave (some (.MsgDataHave MsgTypeHave 42))).2 = true ∧
    Gotrnt.DecodeMessage (EncodeMessage MsgTypeHave (some (.MsgDataHave MsgTypeHave 42))).1 =
      .success (roundTripExpected (.MsgDataHave MsgTypeHave 42)) ∧
    Part000.DecodeMessage
        ((EncodeMessage MsgTypeHave (some (.MsgDataHave MsgTypeHave 42))).1.drop 4) =
      .success (roundTripExpected (.MsgDataHave MsgTypeHave 42)) := by
  have h := c1_roundtrip_amended MsgTypeHave (.MsgDataHave MsgTypeHave 42)
    (by decide) ⟨rfl, rfl, by norm_num⟩
  rcases h with ⟨h1, h2, h3⟩
  rw [if_neg (by decide)] at h3
  exact ⟨h1, h2, h3⟩

/-- C2 (code-bug evidence): a buffer classified as Have but shorter than its
5-byte fixed payload makes both revisions' decoders fault with an
out-of-range slice access (`buf[1:5]`), instead of returning the
`TruncatedMessage` error the specification requires — neither revision
validates buffer length before slicing. -/
theorem c2_truncated_fault :
    Gotrnt.DecodeMessage [0, 0, 0, 1, 4] = .fault ∧
    Part000.DecodeMessage [4] = .fault := by decide

/-- C3 (counterexample): the `gotrntmessages.go` decoder applied to the
prefix-stripped 5-byte buffer 04 00 00 00 2A does not return Have{42}: its
classifier reads the id byte at index 4 (value 0x2A = 42, clamped to
Invalid), so decoding fails. -/
theorem c3_have_counterexample :
    Gotrnt.DecodeMessage [0x04, 0x00, 0x00, 0x00, 0x2A] = .failure := by decide

/-- C3 (amended): encoding Have{42} yields exactly
00 00 00 05 04 00 00 00 2A; the unnamed revision's decoder returns Have{42}
on the prefix-stripped 5 bytes, while the `gotrntmessages.go` decoder
returns Have{42} on the full 9-byte buffer (its convention keeps the length
header attached). -/
theorem c3_have_amended :
    EncodeMessage MsgTypeHave (some (.MsgDataHave MsgTypeHave 42)) =
      ([0x00, 0x00, 0x00, 0x05, 0x04, 0x00, 0x00, 0x00, 0x2A], true) ∧
    Part000.DecodeMessage [0x04, 0x00, 0x00, 0x00, 0x2A] =
      .success (.MsgDataHave MsgTypeHave 42) ∧
    Gotrnt.DecodeMessage [0x00, 0x00, 0x00, 0x05, 0x04, 0x00, 0x00, 0x00, 0x2A] =
      .success (.MsgDataHave MsgTypeHave 42) := by decide

/-- C4 (code-bug evidence): encoding Port{6881} produces
00 00 00 03 09 FF FF, not the claimed 00 00 00 03 09 1A E1: the u16 helper
ORs with 0xFF instead of masking, so the port bytes are always FF FF, and
the round trip through the codec's own decoder yields 65535. -/
theorem c4_port_encoding_bug :
    EncodeMessage MsgTypePort (some (.MsgDataPort MsgTypePort 6881)) =
      ([0x00, 0x00, 0x00, 0x03, 0x09, 0xff, 0xff], true) ∧
    ([0x00, 0x00, 0x00, 0x03, 0x09, 0xff, 0xff] : List Nat) ≠
      [0x00, 0x00, 0x00, 0x03, 0x09, 0x1a, 0xe1] ∧
    Gotrnt.DecodeMessage [0x00, 0x00, 0x00, 0x03, 0x09, 0xff, 0xff] =
      .success (.MsgDataPort MsgTypePort 65535) := by decide

/-- C5 (counterexample): the buffer 00 00 00 00 0A has id byte 10 > 9 at the
`gotrntmessages.go` classifier's designated position (index 4), is far too
short to match the handshake pattern, yet is classified as Handshake, not
Invalid (and id byte 11 is classified as KeepAlive). -/
theorem c5_invalid_counterexample :
    ([0, 0, 0, 0, 10] : List Nat).getD 4 0 > 9 ∧
    ¬ (([0, 0, 0, 0, 10] : List Nat).length > goTrntHeaderLen) ∧
    (Gotrnt.GetMessageType [0, 0, 0, 0, 10]).1 = MsgTypeHandshake ∧
    (Gotrnt.GetMessageType [0, 0, 0, 0, 11]).1 = MsgTypeKeepAlive ∧
    MsgTypeHandshake ≠ MsgTypeInvalid := by decide

/-- C5 (amended): the unnamed revision's classifier returns Invalid for every
buffer whose id byte (index 0) exceeds 9 and which does not match the
handshake pattern, exactly as claimed; the `gotrntmessages.go` classifier
(id byte at index 4) does so only for id values 12 and above, while values 10
and 11 are classified as Handshake and KeepAlive respectively. -/
theorem c5_invalid_amended :
    (∀ buf : List Nat, buf.getD 0 0 > 9 →
      ¬ (buf.length > goTrntHeaderLen ∧ buf.getD 0 0 = goTrntHeaderLen ∧
          (buf.drop 1).take goTrntHeaderLen = goTrntHeaderBytes) →
      (Part000.GetMessageType buf).1 = MsgTypeInvalid) ∧
    (∀ buf : List Nat, buf.getD 4 0 ≥ 12 →
      ¬ (buf.length > goTrntHeaderLen ∧ buf.getD 0 0 = goTrntHeaderLen ∧
          (buf.drop 1).take goTrntHeaderLen = goTrntHeaderBytes) →
      (Gotrnt.GetMessageType buf).1 = MsgTypeInvalid) ∧
    (Gotrnt.GetMessageType [0, 0, 0, 0, 10]).1 = MsgTypeHandshake ∧
    (Gotrnt.GetMessageType [0, 0, 0, 0, 11]).1 = MsgTypeKeepAlive := by
  refine ⟨?_, ?_, by decide, by decide⟩
  · intro buf hid hns
    unfold Part000.GetMessageType
    by_cases h0 : buf.length ≤ 0
    · rw [if_pos h0]
    · rw [if_neg h0, if_neg hns, if_neg]
      rintro ⟨-, hle⟩
      have hle9 : buf.getD 0 0 ≤ 9 := hle
      omega
  · intro buf hid hns
    unfold Gotrnt.GetMessageType
    rw [if_neg hns]
    by_cases hlen : buf.length > 4
    · rw [if_pos hlen]
      show (if buf.getD 4 0 > 12 then 12 else buf.getD 4 0) = MsgTypeInvalid
      by_cases hgt : buf.getD 4 0 > 12
      · rw [if_pos hgt]
        rfl
      · rw [if_neg hgt]
        show buf.getD 4 0 = 12
        omega
    · rw [if_neg hlen]

/-- C5 (witness): the amended statement applied to the concrete buffers 0D
(unnamed revision) and 00 00 00 00 0D (`gotrntmessages.go`), both carrying id
byte 13. -/
theorem c5_invalid_witness :
    (Part000.GetMessageType [13]).1 = MsgTypeInvalid ∧
    (Gotrnt.GetMessageType [0, 0, 0, 0, 13]).1 = MsgTypeInvalid :=
  ⟨c5_invalid_amended.1 [13] (by decide) (by decide),
   c5_invalid_amended.2.1 [0, 0, 0, 0, 13] (by decide) (by decide)⟩

/-- C6: any buffer longer than 19 bytes whose byte 0 equals 19 and whose
bytes 1 through 19 spell "BitTorrent protocol" is classified as Handshake by
both revisions, regardless of the remaining length. -/
theorem c6_handshake_classification (buf : List Nat)
    (h1 : buf.length > 19) (h2 : buf.getD 0 0 = 19)
    (h3 : (buf.drop 1).take 19 = goTrntHeaderBytes) :
    (Gotrnt.GetMessageType buf).1 = MsgTypeHandshake ∧
    (Part000.GetMessageType buf).1 = MsgTypeHandshake := by
  constructor
  · rw [Gotrnt_GetMessageType_handshake buf h1 h2 h3]
  · rw [Part000_GetMessageType_handshake buf h1 h2 h3]

/-- C6 (witness): the 20-byte buffer 13 followed by "BitTorrent protocol". -/
theorem c6_handshake_classification_witness :
    (Gotrnt.GetMessageType (19 :: goTrntHeaderBytes)).1 = MsgTypeHandshake ∧
    (Part000.GetMessageType (19 :: goTrntHeaderBytes)).1 = MsgTypeHandshake :=
  c6_handshake_classification (19 :: goTrntHeaderBytes) (by decide) (by decide) (by decide)

/-- C7 (counterexample): for kind Choke with a Have payload record — a
record whose type does not agree with the kind — EncodeMessage succeeds and
produces a buffer instead of failing: the single-byte kinds are serialized
before any payload check. -/
theorem c7_wrong_variant_counterexample :
    EncodeMessage MsgTypeChoke (some (.MsgDataHave MsgTypeHave 7)) =
      ([0, 0, 0, 1, 0], true) := by decide

/-- C7 (amended): only the payload-carrying kinds Have, Bitfield, Request,
Piece, Cancel, Port and Handshake type-assert their payload record; for
those, a record of the wrong type makes EncodeMessage fail with no output.
The four single-byte kinds and KeepAlive never inspect the record type, and
the record's embedded numeric tag is never checked for any kind. -/
theorem c7_wrong_variant_amended (msgType : Nat) (msgData : MsgData)
    (hk : msgType = MsgTypeHave ∨ msgType = MsgTypeBitfield ∨ msgType = MsgTypeRequest ∨
      msgType = MsgTypePiece ∨ msgType = MsgTypeCancel ∨ msgType = MsgTypePort ∨
      msgType = MsgTypeHandshake)
    (hmis : ¬ recordMatchesKind msgType msgData) :
    EncodeMessage msgType (some msgData) = ([], false) := by
  rcases hk with h | h | h | h | h | h | h <;> subst h <;> cases msgData <;>
    first
      | exact absurd (by first | exact rfl | exact Or.inl rfl | exact Or.inr rfl) hmis
      | rfl

/-- C7 (witness): kind Have with a Port record fails with empty output. -/
theorem c7_wrong_variant_witness :
    EncodeMessage MsgTypeHave (some (.MsgDataPort MsgTypePort 6881)) = ([], false) :=
  c7_wrong_variant_amended MsgTypeHave (.MsgDataPort MsgTypePort 6881) (Or.inl rfl)
    (fun h => absurd (show MsgTypeHave = MsgTypePort from h) (by decide))

/-- C8: whenever EncodeMessage reports failure, the byte sequence it returns
is empty — every error path returns the untouched buffer, so no partial
output is ever exposed. -/
theorem c8_no_partial_output (msgType : Nat) (msgData : Option MsgData)
    (h : (EncodeMessage msgType msgData).2 = false) :
    (EncodeMessage msgType msgData).1 = [] := by
  revert h
  unfold EncodeMessage
  repeat' split
  all_goals intro h
  all_goals first | rfl | exact absurd h (by simp)

/-- C8 (witness): encoding the unsupported Invalid kind with a nil payload
fails and indeed returns the empty byte sequence. -/
theorem c8_no_partial_output_witness :
    (EncodeMessage MsgTypeInvalid none).2 = false ∧
    (EncodeMessage MsgTypeInvalid none).1 = [] :=
  ⟨by decide, c8_no_partial_output MsgTypeInvalid none (by decide)⟩

/-- C10: the four single-byte kinds encode to 00 00 00 01 followed by the
kind's ordinal for every payload argument, including a nil payload — the
nil check only guards the later kinds. -/
theorem c10_single_byte_kinds (msgData : Option MsgData) :
    EncodeMessage MsgTypeChoke msgData = ([0, 0, 0, 1, 0], true) ∧
    EncodeMessage MsgTypeUnchoke msgData = ([0, 0, 0, 1, 1], true) ∧
    EncodeMessage MsgTypeInterested msgData = ([0, 0, 0, 1, 2], true) ∧
    EncodeMessage MsgTypeNotInterested msgData = ([0, 0, 0, 1, 3], true) :=
  ⟨rfl, rfl, rfl, rfl⟩

/-- Every successful outcome of the decoding switch carries the dispatched
message type as its embedded tag. -/
theorem decodeMsgSwitch_tag (msgType : Nat) (buf : List Nat) (m : MsgData)
    (h : decodeMsgSwitch msgType buf = .success m) : msgTypeTag m = msgType := by
  unfold decodeMsgSwitch at h
  split_ifs at h <;>
    (repeat' split at h) <;>
    first
      | (injection h with h2; subst h2; rfl)
      | exact absurd h (by simp)

/-- C9: whenever either revision's decoder succeeds, the returned message's
`GetMsgType` tag equals the kind that the same revision's classifier assigns
to the buffer. -/
theorem c9_decoded_tag_matches_classification (buf : List Nat) (m : MsgData) :
    (Gotrnt.DecodeMessage buf = .success m →
      (GetMsgType m).1 = (Gotrnt.GetMessageType buf).1) ∧
    (Part000.DecodeMessage buf = .success m →
      (GetMsgType m).1 = (Part000.GetMessageType buf).1) := by
  constructor
  · intro h
    unfold Gotrnt.DecodeMessage at h
    by_cases h0 : buf.length ≤ 0
    · rw [if_pos h0] at h
      exact absurd h (by simp)
    · rw [if_neg h0] at h
      by_cases hr : MsgTypeChoke ≤ (Gotrnt.GetMessageType buf).1 ∧
          (Gotrnt.GetMessageType buf).1 ≤ MsgTypePort
      · rw [if_pos hr] at h
        rcases hsl : goSlice buf 4 buf.length with _ | rest
        · rw [hsl] at h
          exact absurd h (by simp)
        · rw [hsl] at h
          exact decodeMsgSwitch_tag _ _ m h
      · rw [if_neg hr] at h
        exact decodeMsgSwitch_tag _ _ m h
  · intro h
    unfold Part000.DecodeMessage at h
    by_cases h0 : buf.length ≤ 0
    · rw [if_pos h0] at h
      exact absurd h (by simp)
    · rw [if_neg h0] at h
      exact decodeMsgSwitch_tag _ _ m h

/-- C9 (witness): the invariant at the Choke buffers of the two revisions. -/
theorem c9_decoded_tag_witness :
    Gotrnt.DecodeMessage [0, 0, 0, 1, 0] = .success (.MsgDataChoke 0 true) ∧
    (GetMsgType (.MsgDataChoke 0 true)).1 = (Gotrnt.GetMessageType [0, 0, 0, 1, 0]).1 ∧
    Part000.DecodeMessage [0] = .success (.MsgDataChoke 0 true) ∧
    (GetMsgType (.MsgDataChoke 0 true)).1 = (Part000.GetMessageType [0]).1 :=
  ⟨by decide,
   (c9_decoded_tag_matches_classification [0, 0, 0, 1, 0] (.MsgDataChoke 0 true)).1 (by decide),
   by decide,
   (c9_decoded_tag_matches_classification [0] (.MsgDataChoke 0 true)).2 (by decide)⟩
